import Mathlib

/-!
Verification of the web-stats football dashboard (`football/views.py`,
`football/services.py`) against its natural-language specification.

Python strings are modelled as `List Char`.  Unicode NFKD decomposition is
modelled by a table covering the code points that occur in the repository's
keyword tables and Spanish-language data (ASCII passes through unchanged;
accented Latin letters decompose into a base letter plus a combining mark).
-/

/-- Python strings are sequences of characters. -/
abbrev Str := List Char

/-- NFKD decomposition, restricted to the Latin code points used by the
repository (accented vowels, `ñ`, `ü`, `ç` and their capitals).  Every other
character is left alone, as NFKD leaves ASCII unchanged. -/
def nfkdChar : Char → Str
  | 'á' => ['a', '́']
  | 'é' => ['e', '́']
  | 'í' => ['i', '́']
  | 'ó' => ['o', '́']
  | 'ú' => ['u', '́']
  | 'Á' => ['A', '́']
  | 'É' => ['E', '́']
  | 'Í' => ['I', '́']
  | 'Ó' => ['O', '́']
  | 'Ú' => ['U', '́']
  | 'à' => ['a', '̀']
  | 'è' => ['e', '̀']
  | 'ì' => ['i', '̀']
  | 'ò' => ['o', '̀']
  | 'ù' => ['u', '̀']
  | 'â' => ['a', '̂']
  | 'ê' => ['e', '̂']
  | 'î' => ['i', '̂']
  | 'ô' => ['o', '̂']
  | 'û' => ['u', '̂']
  | 'ä' => ['a', '̈']
  | 'ë' => ['e', '̈']
  | 'ï' => ['i', '̈']
  | 'ö' => ['o', '̈']
  | 'ü' => ['u', '̈']
  | 'Ü' => ['U', '̈']
  | 'ñ' => ['n', '̃']
  | 'Ñ' => ['N', '̃']
  | 'ç' => ['c', '̧']
  | 'Ç' => ['C', '̧']
  | c => [c]

/-- `unicodedata.normalize("NFKD", s)` on a whole string. -/
def nfkdStr (s : Str) : Str :=
  (s.map nfkdChar).flatten

/-- Python `str.isspace`-style whitespace (the ASCII whitespace characters). -/
def pyIsSpace (c : Char) : Bool :=
  c = ' ' || c = '\t' || c = '\n' || c = '\r' || c = '\x0b' || c = '\x0c'

/-- Python `ch.isalnum()` on the post-NFKD character domain: ASCII letters and
digits.  Combining marks are not alphanumeric and are filtered out. -/
def pyIsAlnum (c : Char) : Bool :=
  c.isAlphanum

/-- Python `str.lower` (ASCII case mapping; the normalized strings the code
lowercases contain only ASCII letters within the modelled domain). -/
def pyLower (s : Str) : Str :=
  s.map Char.toLower

/-- Python `str.strip()`: remove leading and trailing whitespace. -/
def pyStrip (s : Str) : Str :=
  ((s.dropWhile pyIsSpace).reverse.dropWhile pyIsSpace).reverse

/-- Python's `needle in haystack` substring test. -/
def containsSub (needle haystack : Str) : Bool :=
  haystack.tails.any (fun t => needle.isPrefixOf t)

/-!  ### `normalize_label` and the keyword predicates (football/views.py)  -/

/-- `normalize_label(value)` from `football/views.py`.  `None` and the empty
string are falsy in Python and normalize to the empty string. -/
def normalize_label (value : Option Str) : Str :=
  match value with
  | none => []
  | some s =>
      if s = [] then []
      else
        pyStrip (pyLower ((nfkdStr s).filter (fun ch => pyIsAlnum ch || pyIsSpace ch)))

/-- `contains_keyword(value, keywords)` from `football/views.py`. -/
def contains_keyword (value : Option Str) (keywords : List Str) : Bool :=
  keywords.any (fun keyword => containsSub keyword (normalize_label value))

/-- `GOAL_KEYWORDS` from `football/views.py`. -/
def GOAL_KEYWORDS : List Str :=
  ["gol".toList, "goles".toList, "anotado".toList, "marcado".toList, "goal".toList]

/-- `SUBSTITUTION_KEYWORDS` from `football/views.py`. -/
def SUBSTITUTION_KEYWORDS : List Str :=
  ["sustitucion".toList, "sustitución".toList, "cambio".toList]

/-- `SUB_ENTRY_KEYWORDS` from `football/views.py`. -/
def SUB_ENTRY_KEYWORDS : List Str :=
  ["entrada".toList, "entrante".toList, "subida".toList]

/-- `SUB_EXIT_KEYWORDS` from `football/views.py`. -/
def SUB_EXIT_KEYWORDS : List Str :=
  ["salida".toList, "saliente".toList, "bajada".toList]

/-- `SHOT_KEYWORDS` from `football/views.py`. -/
def SHOT_KEYWORDS : List Str :=
  ["tiro".toList, "remate".toList, "disparo".toList, "chuza".toList, "chute".toList]

/-- `PASS_KEYWORDS` from `football/views.py`. -/
def PASS_KEYWORDS : List Str :=
  ["pase".toList, "pases".toList, "pase clave".toList, "pase al hueco".toList]

/-- `ASSIST_KEYWORDS` from `football/views.py`. -/
def ASSIST_KEYWORDS : List Str :=
  ["asistencia".toList, "asist".toList, "pase gol".toList, "asiste".toList]

/-- `YELLOW_CARD_KEYWORDS` from `football/views.py`. -/
def YELLOW_CARD_KEYWORDS : List Str :=
  ["amarilla".toList, "tarjeta amarilla".toList]

/-- `RED_CARD_KEYWORDS` from `football/views.py`. -/
def RED_CARD_KEYWORDS : List Str :=
  ["roja".toList, "tarjeta roja".toList]

/-- `DUEL_EVENT_KEYWORDS` from `football/views.py`. -/
def DUEL_EVENT_KEYWORDS : List Str :=
  ["duelo".toList, "regate".toList, "regates".toList, "robo".toList, "robado".toList,
   "intercepción".toList, "intervención".toList, "entrada".toList, "entradas".toList,
   "recuperación".toList, "recuperado".toList, "falta cometida".toList,
   "falta recibida".toList, "presión".toList, "presionado".toList,
   "error forzado".toList, "error".toList, "disputa".toList]

/-- `DUEL_SUCCESS_KEYWORD` from `football/views.py`. -/
def DUEL_SUCCESS_KEYWORD : List Str :=
  ["ganado".toList, "recuperado".toList, "ok".toList, "fortaleza".toList,
   "favorable".toList, "superado".toList]

/-- `SUCCESS_RESULTS` from `football/views.py` (matched by set membership, not
substring). -/
def SUCCESS_RESULTS : List Str :=
  ["ok".toList, "ganado".toList, "g".toList, "ganó".toList, "goles".toList,
   "anotado".toList, "marcado".toList]

/-- `is_goal_event(event_type, result, observation)` from `football/views.py`. -/
def is_goal_event (event_type result observation : Option Str) : Bool :=
  contains_keyword event_type GOAL_KEYWORDS
    || contains_keyword result GOAL_KEYWORDS
    || contains_keyword observation GOAL_KEYWORDS

/-- `is_assist_event` from `football/views.py`. -/
def is_assist_event (event_type result observation : Option Str) : Bool :=
  contains_keyword event_type ASSIST_KEYWORDS
    || contains_keyword result ASSIST_KEYWORDS
    || contains_keyword observation ASSIST_KEYWORDS

/-- `is_yellow_card_event` from `football/views.py`. -/
def is_yellow_card_event (event_type result zone : Option Str) : Bool :=
  contains_keyword event_type YELLOW_CARD_KEYWORDS
    || contains_keyword result YELLOW_CARD_KEYWORDS
    || contains_keyword zone YELLOW_CARD_KEYWORDS

/-- `is_red_card_event` from `football/views.py`. -/
def is_red_card_event (event_type result zone : Option Str) : Bool :=
  contains_keyword event_type RED_CARD_KEYWORDS
    || contains_keyword result RED_CARD_KEYWORDS
    || contains_keyword zone RED_CARD_KEYWORDS

/-- `is_substitution_event(event_type, zone)` from `football/views.py`. -/
def is_substitution_event (event_type zone : Option Str) : Bool :=
  contains_keyword event_type SUBSTITUTION_KEYWORDS
    || contains_keyword zone SUBSTITUTION_KEYWORDS

/-- `is_substitution_entry(event_type, result, zone)` from `football/views.py`. -/
def is_substitution_entry (event_type result zone : Option Str) : Bool :=
  if !is_substitution_event event_type zone then false
  else contains_keyword result SUB_ENTRY_KEYWORDS || contains_keyword zone SUB_ENTRY_KEYWORDS

/-- `is_substitution_exit(event_type, result, zone)` from `football/views.py`. -/
def is_substitution_exit (event_type result zone : Option Str) : Bool :=
  if !is_substitution_event event_type zone then false
  else contains_keyword result SUB_EXIT_KEYWORDS || contains_keyword zone SUB_EXIT_KEYWORDS

/-- `result_is_success(result)` from `football/views.py`: exact membership of
the stripped, lowercased result in `SUCCESS_RESULTS`. -/
def result_is_success (result : Option Str) : Bool :=
  match result with
  | none => false
  | some s =>
      if s = [] then false
      else SUCCESS_RESULTS.contains (pyLower (pyStrip s))

/-- `is_duel_event(event_type, observation)` from `football/views.py`. -/
def is_duel_event (event_type observation : Option Str) : Bool :=
  let normalized := normalize_label event_type
  if normalized = [] then false
  else if DUEL_EVENT_KEYWORDS.any (fun keyword => containsSub keyword normalized) then true
  else
    match observation with
    | none => false
    | some s =>
        if s = [] then false
        else DUEL_EVENT_KEYWORDS.any (fun keyword => containsSub keyword (normalize_label (some s)))

/-- `duel_result_is_success(result)` from `football/views.py` (substring test
over the stripped lowercase result, no NFKD). -/
def duel_result_is_success (result : Option Str) : Bool :=
  match result with
  | none => false
  | some s =>
      if s = [] then false
      else DUEL_SUCCESS_KEYWORD.any (fun keyword => containsSub keyword (pyLower (pyStrip s)))

/-!  ### `TERCIO_MAP` and `map_tercio` (football/views.py)

`TERCIO_MAP` is a Python `dict`; iteration order is insertion order, so it is
modelled as an ordered association list. -/

/-- `TERCIO_MAP` from `football/views.py`, in source insertion order. -/
def TERCIO_MAP : List (Str × Str) :=
  [("ataque".toList, "Ataque".toList),
   ("ofensivo".toList, "Ataque".toList),
   ("zona ataque".toList, "Ataque".toList),
   ("finalización".toList, "Ataque".toList),
   ("propia".toList, "Defensa".toList),
   ("defensa".toList, "Defensa".toList),
   ("defensivo".toList, "Defensa".toList),
   ("construccion".toList, "Construcción".toList),
   ("construcción".toList, "Construcción".toList),
   ("medio".toList, "Construcción".toList),
   ("progresión".toList, "Construcción".toList),
   ("posesión".toList, "Construcción".toList),
   ("control".toList, "Construcción".toList),
   ("ataque centro".toList, "Ataque".toList),
   ("ataque izquierdo".toList, "Ataque".toList)]

/-- The `for key, label in TERCIO_MAP.items()` loop body of `map_tercio`:
return the label of the first table key contained in the normalized text. -/
def tercioLookup (table : List (Str × Str)) (normalized : Str) : Option Str :=
  match table with
  | [] => none
  | (key, label) :: rest =>
      if containsSub key normalized then some label else tercioLookup rest normalized

/-- `map_tercio(raw)` from `football/views.py`. -/
def map_tercio (raw : Option Str) : Option Str :=
  tercioLookup TERCIO_MAP (normalize_label raw)

/-!  ### Minute and round helpers (football/views.py)  -/

/-- `min_or_none(current, candidate)` from `football/views.py`. -/
def min_or_none (current candidate : Option Int) : Option Int :=
  match candidate with
  | none => current
  | some c =>
      match current with
      | none => some c
      | some cur => some (min cur c)

/-- The first maximal run of digits in a string (`re.search(r'(\d+)', ...)`). -/
def firstDigitRun : Str → Option Str
  | [] => none
  | c :: rest =>
      if c.isDigit then some (c :: rest.takeWhile Char.isDigit)
      else firstDigitRun rest

/-- `int` applied to a nonempty digit string. -/
def digitsToNat (ds : Str) : Nat :=
  ds.foldl (fun n c => 10 * n + (c.toNat - 48)) 0

/-- `extract_round_number(value)` from `football/views.py`.  `None` and the
empty string are falsy and yield `None`; otherwise the first digit run is
parsed (the `int` conversion of a digit run cannot fail). -/
def extract_round_number (value : Option Str) : Option Nat :=
  match value with
  | none => none
  | some s =>
      if s = [] then none
      else (firstDigitRun s).map digitsToNat

/-!  ### Roster matching (football/services.py)

`normalize_player_name` is Django's `slugify`: NFKD-decompose and drop
non-ASCII, lowercase, drop characters outside `[a-z0-9_\s-]`, collapse runs of
hyphens/whitespace into a single hyphen, and strip leading/trailing `-`/`_`. -/

/-- ASCII projection after NFKD (`.encode("ascii", "ignore")`). -/
def asciiNfkd (s : Str) : Str :=
  (nfkdStr s).filter (fun c => c.toNat < 128)

/-- A character kept by slugify's `[^\w\s-]` removal (after lowercasing). -/
def slugKeep (c : Char) : Bool :=
  c.isAlphanum || c = '_' || pyIsSpace c || c = '-'

/-- Is this character matched by slugify's `[-\s]+` collapsing step? -/
def dashSpace (c : Char) : Bool :=
  c = '-' || pyIsSpace c

/-- Worker for the `[-\s]+` collapsing: the flag records whether the previous
character was part of a hyphen/whitespace run already emitted as `-`. -/
def collapseDashesAux : Bool → Str → Str
  | _, [] => []
  | inRun, c :: rest =>
      if dashSpace c then
        if inRun then collapseDashesAux true rest
        else '-' :: collapseDashesAux true rest
      else c :: collapseDashesAux false rest

/-- Replace each maximal run of hyphens/whitespace with a single hyphen
(`re.sub(r"[-\s]+", "-", value)`). -/
def collapseDashes (s : Str) : Str :=
  collapseDashesAux false s

/-- `str.strip("-_")`: drop leading and trailing hyphens and underscores. -/
def stripDashUnderscore (s : Str) : Str :=
  let p := fun c => c = '-' || c = '_'
  ((s.dropWhile p).reverse.dropWhile p).reverse

/-- Django's `slugify(value)` (`django.utils.text`), the body of
`normalize_player_name` in `football/services.py`. -/
def slugify (s : Str) : Str :=
  stripDashUnderscore (collapseDashes ((pyLower (asciiNfkd s)).filter slugKeep))

/-- `normalize_player_name(value)` from `football/services.py` (`None` is
falsy and becomes the empty string before slugifying). -/
def normalize_player_name (value : Option Str) : Str :=
  slugify (value.getD [])

/-- `ALIAS_MAP` from `football/services.py`, in source insertion order. -/
def ALIAS_MAP : List (Str × Str) :=
  [("antonio".toList, "antonio-gamez-paniagua".toList),
   ("andrew".toList, "andrew-brayce-gonzales-ticona".toList),
   ("andrews".toList, "andrew-brayce-gonzales-ticona".toList),
   ("andrew-brayce-gonzales-ticona".toList, "andrew-brayce-gonzales-ticona".toList),
   ("manu".toList, "manuel-torres-palenzuela".toList),
   ("lolo".toList, "manuel-fernandez-canete".toList),
   ("jaime".toList, "javier-gutierrez-palma".toList),
   ("javi".toList, "javier-gutierrez-palma".toList),
   ("martinez".toList, "antonio-martinez-campens".toList),
   ("nico".toList, "nicolas-villalba-alcaide".toList),
   ("nicolas".toList, "nicolas-villalba-alcaide".toList),
   ("nacho".toList, "ignacio-dorado-morales".toList),
   ("ivan".toList, "ivan-fernandez-reina".toList),
   ("yaco".toList, "yaco-uriel-campoamor".toList),
   ("acosta".toList, "jose-garcia-acosta".toList),
   ("francis".toList, "francisco-javier-ruiz-perez".toList),
   ("juanmi".toList, "juan-miguel-anaya-bustamante".toList),
   ("victor".toList, "victor-ruiz-postigo".toList),
   ("antonio-ruiz".toList, "antonio-vilches".toList)]

/-- Association-list lookup (Python `dict.get` for a dict with unique keys). -/
def alookup {β : Type} (key : Str) (m : List (Str × β)) : Option β :=
  match m with
  | [] => none
  | (k, v) :: rest => if k = key then some v else alookup key rest

/-- `canonical_roster_key(player_name)` from `football/services.py`. -/
def canonical_roster_key (player_name : Option Str) : Str :=
  let normalized := normalize_player_name player_name
  (alookup normalized ALIAS_MAP).getD normalized

/-- A roster-cache entry as built by `parse_preferente_roster`
(`football/services.py`); only the statistics fields the dashboard reads. -/
structure RosterEntry where
  name : Str
  pc : Nat
  pj : Nat
  pt : Nat
  minutes : Nat
  goals : Nat
  yellow_cards : Nat
  red_cards : Nat
  assists : Nat
  deriving Repr, DecidableEq

/-- `find_roster_entry(player_name, roster)` from `football/services.py`:
alias-canonical key lookup first, then a bidirectional-substring fallback scan
in roster iteration order (first match wins). -/
def find_roster_entry (player_name : Option Str) (roster : List (Str × RosterEntry)) :
    Option RosterEntry :=
  let key := canonical_roster_key player_name
  match (if key ≠ [] then alookup key roster else none) with
  | some entry => some entry
  | none =>
      let target := pyStrip (pyLower (player_name.getD []))
      if target = [] then none
      else
        ((roster.find? (fun kv =>
            containsSub target (pyLower kv.2.name)
              || containsSub (pyLower kv.2.name) target)).map (fun kv => kv.2))

/-!  ### The dashboard pipeline (`compute_player_dashboard`, football/views.py)

Python dicts are modelled as ordered association lists with unique keys:
`setdefault`/`__setitem__` update the first occurrence in place or append a
new key at the end, and `.values()` iterates in insertion order. -/

/-- `dict.get` for an association list. -/
def dget {κ β : Type} [DecidableEq κ] (key : κ) : List (κ × β) → Option β
  | [] => none
  | (k, v) :: rest => if k = key then some v else dget key rest

/-- `dict[key] = value`: replace in place, or append if the key is new. -/
def dset {κ β : Type} [DecidableEq κ] (key : κ) (value : β) : List (κ × β) → List (κ × β)
  | [] => [(key, value)]
  | (k, v) :: rest => if k = key then (key, value) :: rest else (k, v) :: dset key value rest

/-- Python 3 `round(q)`: round half to even, returning an integer. -/
def pyRound (q : ℚ) : Int :=
  if q - ⌊q⌋ < 1 / 2 then ⌊q⌋
  else if 1 / 2 < q - ⌊q⌋ then ⌊q⌋ + 1
  else if ⌊q⌋ % 2 = 0 then ⌊q⌋ else ⌊q⌋ + 1

/-- Python 3 `round(q, 1)`: round half to even at one decimal place. -/
def pyRound1 (q : ℚ) : ℚ :=
  (pyRound (10 * q) : ℚ) / 10

/-- A `MatchEvent` row joined with its `player` and `match`, as consumed by
`compute_player_dashboard`.  Fields not read by the dashboard are omitted. -/
structure Event where
  playerId : Option Nat
  playerName : Str
  matchId : Option Nat
  matchRound : Option Str
  matchDate : Option Str
  minute : Option Int
  event_type : Option Str
  result : Option Str
  observation : Option Str
  zone : Option Str
  system : Str
  deriving Repr, DecidableEq

/-- The per-match entry built by the `stats['matches'].setdefault` block. -/
structure MatchEntry where
  match_id : Nat
  round : Str
  date : Option Str
  actions : Nat
  successes : Nat
  success_rate : Int
  deriving Repr, DecidableEq

/-- The per-player accumulator dict of `compute_player_dashboard` (the
statistics fields; presentational heatmap counters are omitted). -/
structure Stats where
  player_id : Nat
  name : Str
  total_actions : Nat
  successes : Nat
  pc : Nat
  pj : Nat
  pt : Nat
  minutes : Int
  goals : Nat
  yellow_cards : Nat
  red_cards : Nat
  assists : Nat
  matches_ : List (Nat × MatchEntry)
  duels_total : Nat
  duels_won : Nat
  shot_attempts : Nat
  shots_on_target : Nat
  pass_attempts : Nat
  passes_completed : Nat
  has_events : Bool
  deriving Repr, DecidableEq

/-- The initial per-player dict passed to `player_stats.setdefault` in the
first loop; baseline counters come from `find_roster_entry`. -/
def initStats (pid : Nat) (pname : Str) (roster : List (Str × RosterEntry)) : Stats :=
  let entry := find_roster_entry (some pname) roster
  { player_id := pid
    name := pname
    total_actions := 0
    successes := 0
    pc := (entry.map (fun e => e.pc)).getD 0
    pj := (entry.map (fun e => e.pj)).getD 0
    pt := (entry.map (fun e => e.pt)).getD 0
    minutes := ((entry.map (fun e => e.minutes)).getD 0 : Nat)
    goals := (entry.map (fun e => e.goals)).getD 0
    yellow_cards := (entry.map (fun e => e.yellow_cards)).getD 0
    red_cards := (entry.map (fun e => e.red_cards)).getD 0
    assists := (entry.map (fun e => e.assists)).getD 0
    matches_ := []
    duels_total := 0
    duels_won := 0
    shot_attempts := 0
    shots_on_target := 0
    pass_attempts := 0
    passes_completed := 0
    has_events := false }

/-- The initial per-match dict (`'round': match.round or 'Partido sin jornada'`;
`success_rate` is first written on the event that creates the entry). -/
def initMatchEntry (mid : Nat) (e : Event) : MatchEntry :=
  { match_id := mid
    round := match e.matchRound with
             | none => "Partido sin jornada".toList
             | some r => if r = [] then "Partido sin jornada".toList else r
    date := e.matchDate
    actions := 0
    successes := 0
    success_rate := 0 }

/-- `stats['has_events'] = True; stats['total_actions'] += 1`. -/
def tallyAction (st : Stats) : Stats :=
  { st with has_events := true, total_actions := st.total_actions + 1 }

/-- `if result_is_success(event.result): stats['successes'] += 1`. -/
def tallySuccess (e : Event) (st : Stats) : Stats :=
  if result_is_success e.result then { st with successes := st.successes + 1 } else st

/-- `if is_goal_event(...): stats['goals'] += 1`. -/
def tallyGoal (e : Event) (st : Stats) : Stats :=
  if is_goal_event e.event_type e.result e.observation then
    { st with goals := st.goals + 1 }
  else st

/-- `if is_assist_event(...): stats['assists'] += 1`. -/
def tallyAssist (e : Event) (st : Stats) : Stats :=
  if is_assist_event e.event_type e.result e.observation then
    { st with assists := st.assists + 1 }
  else st

/-- `if is_yellow_card_event(...): stats['yellow_cards'] += 1`. -/
def tallyYellow (e : Event) (st : Stats) : Stats :=
  if is_yellow_card_event e.event_type e.result e.zone then
    { st with yellow_cards := st.yellow_cards + 1 }
  else st

/-- `if is_red_card_event(...): stats['red_cards'] += 1`. -/
def tallyRed (e : Event) (st : Stats) : Stats :=
  if is_red_card_event e.event_type e.result e.zone then
    { st with red_cards := st.red_cards + 1 }
  else st

/-- The duel block: `duels_total += 1` and conditionally `duels_won += 1`. -/
def tallyDuel (e : Event) (st : Stats) : Stats :=
  if is_duel_event e.event_type e.observation then
    { st with duels_total := st.duels_total + 1,
              duels_won := st.duels_won + (if duel_result_is_success e.result then 1 else 0) }
  else st

/-- The shot block: `shot_attempts += 1` and conditionally `shots_on_target += 1`. -/
def tallyShot (e : Event) (st : Stats) : Stats :=
  if contains_keyword e.event_type SHOT_KEYWORDS
      || contains_keyword e.observation SHOT_KEYWORDS then
    { st with shot_attempts := st.shot_attempts + 1,
              shots_on_target := st.shots_on_target +
                (if result_is_success e.result then 1 else 0) }
  else st

/-- The pass block: `pass_attempts += 1` and conditionally `passes_completed += 1`. -/
def tallyPass (e : Event) (st : Stats) : Stats :=
  if contains_keyword e.event_type PASS_KEYWORDS
      || contains_keyword e.observation PASS_KEYWORDS then
    { st with pass_attempts := st.pass_attempts + 1,
              passes_completed := st.passes_completed +
                (if result_is_success e.result then 1 else 0) }
  else st

/-- The per-match block (`if not match: continue`, then the
`stats['matches'].setdefault` updates and the running `success_rate`). -/
def tallyMatch (e : Event) (st : Stats) : Stats :=
  match e.matchId with
  | none => st
  | some mid =>
      let me := (dget mid st.matches_).getD (initMatchEntry mid e)
      let me := { me with actions := me.actions + 1 }
      let me := if result_is_success e.result then
                  { me with successes := me.successes + 1 } else me
      let me := { me with success_rate :=
                    if me.actions ≠ 0 then
                      pyRound ((me.successes : ℚ) / (me.actions : ℚ) * 100)
                    else 0 }
      { st with matches_ := dset mid me st.matches_ }

/-- The body of the first loop after the `setdefault`: the per-event updates
applied to one player's stats dict, in source order. -/
def updateStats (e : Event) (st : Stats) : Stats :=
  tallyMatch e (tallyPass e (tallyShot e (tallyDuel e (tallyRed e (tallyYellow e
    (tallyAssist e (tallyGoal e (tallySuccess e (tallyAction st)))))))))

/-- One iteration of the first (confirmed-events) loop of
`compute_player_dashboard` (`if not player: continue`, then
`player_stats.setdefault` and the per-event updates). -/
def phase1Step (roster : List (Str × RosterEntry)) (stats_map : List (Nat × Stats))
    (e : Event) : List (Nat × Stats) :=
  match e.playerId with
  | none => stats_map
  | some pid =>
      dset pid (updateStats e ((dget pid stats_map).getD (initStats pid e.playerName roster)))
        stats_map

/-- The `(entry, exit, has_event)` timeline of one `(player, match)` pair. -/
structure Timeline where
  entry : Option Int
  exit : Option Int
  has_event : Bool
  deriving Repr, DecidableEq

/-- The timeline mutations of the live-events loop body: mark `has_event` and
push down `entry`/`exit` (`event.minute or 0` records an absent minute as
`0`). -/
def updateTimeline (e : Event) (tl : Timeline) : Timeline :=
  let tl := { tl with has_event := true }
  let tl := if is_substitution_entry e.event_type e.result e.zone then
              { tl with entry := min_or_none tl.entry (some (e.minute.getD 0)) }
            else tl
  let tl := if is_substitution_exit e.event_type e.result e.zone then
              { tl with exit := min_or_none tl.exit (some (e.minute.getD 0)) }
            else tl
  tl

/-- One iteration of the live-events loop: skip events without a player,
update `match_end_minutes`, and update the `(player, match)` timeline. -/
def phase2Step (acc : List (Nat × Int) × List (Nat × List (Nat × Timeline)))
    (e : Event) : List (Nat × Int) × List (Nat × List (Nat × Timeline)) :=
  match e.playerId with
  | none => acc
  | some pid =>
      let ends := match e.matchId, e.minute with
        | some mid, some m => dset mid (max ((dget mid acc.1).getD 0) m) acc.1
        | _, _ => acc.1
      match e.matchId with
      | none => (ends, acc.2)
      | some mid =>
          let pmap := (dget pid acc.2).getD []
          let tl := updateTimeline e ((dget mid pmap).getD ⟨none, none, false⟩)
          (ends, dset pid (dset mid tl pmap) acc.2)

/-- The reconstruction of a single `(player, match)` timeline: derive entry and
exit minutes, clamp an inverted exit to the entry, and credit minutes, an
appearance (`pj`) and a start (`pt`). -/
def applyOneTimeline (matchEnds : List (Nat × Int)) (st : Stats)
    (mt : Nat × Timeline) : Stats :=
  let match_end := (dget mt.1 matchEnds).getD 0
  let entry_minute := mt.2.entry.getD 0
  let exit0 := mt.2.exit.getD match_end
  let exit_minute := if exit0 < entry_minute then entry_minute else exit0
  { st with minutes := st.minutes + max 0 (exit_minute - entry_minute),
            pj := st.pj + (if mt.2.has_event then 1 else 0),
            pt := st.pt + (if entry_minute = 0 then 1 else 0) }

/-- One iteration of the timeline loop: players without phase-1 stats are
skipped; afterwards `pc` is floored at `pj`. -/
def phase3Step (matchEnds : List (Nat × Int)) (stats_map : List (Nat × Stats))
    (ptl : Nat × List (Nat × Timeline)) : List (Nat × Stats) :=
  match dget ptl.1 stats_map with
  | none => stats_map
  | some st =>
      let st := ptl.2.foldl (applyOneTimeline matchEnds) st
      let st := { st with pc := max st.pc st.pj }
      dset ptl.1 st stats_map

/-- The per-player dict added by the `ensure roster players appear` loop
(direct `normalize_player_name` cache lookup, empty-dict default). -/
def initStatsFromCache (pid : Nat) (pname : Str)
    (rosterCache : List (Str × RosterEntry)) : Stats :=
  let entry := dget (normalize_player_name (some pname)) rosterCache
  { player_id := pid
    name := pname
    total_actions := 0
    successes := 0
    pc := (entry.map (fun e => e.pc)).getD 0
    pj := (entry.map (fun e => e.pj)).getD 0
    pt := (entry.map (fun e => e.pt)).getD 0
    minutes := ((entry.map (fun e => e.minutes)).getD 0 : Nat)
    goals := (entry.map (fun e => e.goals)).getD 0
    yellow_cards := (entry.map (fun e => e.yellow_cards)).getD 0
    red_cards := (entry.map (fun e => e.red_cards)).getD 0
    assists := (entry.map (fun e => e.assists)).getD 0
    matches_ := []
    duels_total := 0
    duels_won := 0
    shot_attempts := 0
    shots_on_target := 0
    pass_attempts := 0
    passes_completed := 0
    has_events := false }

/-- One iteration of the `ensure roster players appear` loop. -/
def ensureRosterStep (rosterCache : List (Str × RosterEntry))
    (stats_map : List (Nat × Stats)) (p : Nat × Str) : List (Nat × Stats) :=
  if (dget p.1 stats_map).isSome then stats_map
  else stats_map ++ [(p.1, initStatsFromCache p.1 p.2 rosterCache)]

/-- The Python sort key of the per-player `matches` list:
`(extract_round_number(round) is None, extract_round_number(round) or 9999,
date or '')`.  Python's `bool` compares numerically, encoded here as `0`/`1`;
the three components compare lexicographically. -/
def matchSortKey (m : MatchEntry) : Lex (Nat × Lex (Nat × Str)) :=
  let rn := extract_round_number (some m.round)
  toLex (((if rn = none then 1 else 0) : Nat),
    toLex (((match rn with | none => 9999 | some 0 => 9999 | some (n + 1) => n + 1) : Nat),
      m.date.getD []))

/-- Boolean comparison used to sort the matches list (ascending by key; ties
keep insertion order, as Python's stable `sorted` does). -/
def matchLe (x y : MatchEntry) : Bool :=
  decide (matchSortKey x ≤ matchSortKey y)

/-- The final merged per-player output (the statistics fields the claims are
about; presentational heatmap lists are omitted). -/
structure Output where
  player_id : Nat
  name : Str
  total_actions : Nat
  successes : Nat
  pc : Nat
  pj : Nat
  pt : Nat
  minutes : Int
  goals : Nat
  yellow_cards : Nat
  red_cards : Nat
  assists : Nat
  match_list : List MatchEntry
  match_count : Nat
  success_rate : ℚ
  duels_total : Nat
  duels_won : Nat
  duel_rate : ℚ
  shot_attempts : Nat
  shots_on_target : Nat
  shots_accuracy : ℚ
  pass_attempts : Nat
  passes_completed : Nat
  passes_accuracy : ℚ
  has_events : Bool
  deriving Repr, DecidableEq

/-- The `merged = {**stats, ...}` step of the final loop: sort the matches
list by `matchSortKey`, and compute the four guarded percentage rates. -/
def mkOutput (st : Stats) : Output :=
  let ms := (st.matches_.map (fun kv => kv.2)).mergeSort matchLe
  { player_id := st.player_id
    name := st.name
    total_actions := st.total_actions
    successes := st.successes
    pc := st.pc
    pj := st.pj
    pt := st.pt
    minutes := st.minutes
    goals := st.goals
    yellow_cards := st.yellow_cards
    red_cards := st.red_cards
    assists := st.assists
    match_list := ms
    match_count := ms.length
    success_rate :=
      if st.total_actions ≠ 0 then
        pyRound1 ((st.successes : ℚ) / (st.total_actions : ℚ) * 100)
      else 0
    duels_total := st.duels_total
    duels_won := st.duels_won
    duel_rate :=
      if st.duels_total ≠ 0 then
        pyRound1 ((st.duels_won : ℚ) / (st.duels_total : ℚ) * 100)
      else 0
    shot_attempts := st.shot_attempts
    shots_on_target := st.shots_on_target
    shots_accuracy :=
      if st.shot_attempts ≠ 0 then
        pyRound1 ((st.shots_on_target : ℚ) / (st.shot_attempts : ℚ) * 100)
      else 0
    pass_attempts := st.pass_attempts
    passes_completed := st.passes_completed
    passes_accuracy :=
      if st.pass_attempts ≠ 0 then
        pyRound1 ((st.passes_completed : ℚ) / (st.pass_attempts : ℚ) * 100)
      else 0
    has_events := st.has_events }

/-- The final `sorted(result, key=..., reverse=True)`: stable descending sort
by `total_actions`. -/
def byActionsDesc (a b : Output) : Bool :=
  decide (b.total_actions ≤ a.total_actions)

/-- `compute_player_dashboard` from `football/views.py`.

`events` is the team's `MatchEvent` table in the query order
(`player__name, match__date`); the confirmed queryset excludes
`system='touch-field'` and the live queryset keeps exactly
`system='touch-field-final'`.  `rosterCache` is `get_roster_stats_cache()` in
iteration order, and `rosterPlayers` lists the `Player` rows of the team. -/
def compute_player_dashboard (events : List Event)
    (rosterCache : List (Str × RosterEntry)) (rosterPlayers : List (Nat × Str)) :
    List Output :=
  let confirmed := events.filter (fun e => e.system ≠ "touch-field".toList)
  let live := events.filter (fun e => e.system = "touch-field-final".toList)
  let stats1 := confirmed.foldl (phase1Step rosterCache) []
  let ends_tls := live.foldl phase2Step ([], [])
  let stats2 := ends_tls.2.foldl (phase3Step ends_tls.1) stats1
  let stats3 := rosterPlayers.foldl (ensureRosterStep rosterCache) stats2
  (stats3.map (fun kv => mkOutput kv.2)).mergeSort byActionsDesc

/-!  ### Auxiliary predicate and concrete sample inputs  -/

/-- The counter invariant maintained by the aggregation: every "numerator"
counter is bounded by its denominator. -/
def StatsInv (st : Stats) : Prop :=
  st.successes ≤ st.total_actions ∧ st.duels_won ≤ st.duels_total
    ∧ st.shots_on_target ≤ st.shot_attempts ∧ st.passes_completed ≤ st.pass_attempts

/-- An imported (non-live) confirmed event of player 1 in match 20. -/
def sampleImportedEvent : Event :=
  { playerId := some 1, playerName := "Pepe".toList, matchId := some 20,
    matchRound := some "Jornada 2".toList, matchDate := some "2024-09-01".toList,
    minute := some 10, event_type := some "Pase".toList, result := some "OK".toList,
    observation := none, zone := none, system := "excel".toList }

/-- A confirmed event in round 1 whose match date is later than round 2's. -/
def sampleEventRound1 : Event :=
  { playerId := some 1, playerName := "Pepe".toList, matchId := some 10,
    matchRound := some "Jornada 1".toList, matchDate := some "2024-10-01".toList,
    minute := some 10, event_type := some "Pase".toList, result := some "OK".toList,
    observation := none, zone := none, system := "excel".toList }

/-- A live substitution-entry event whose minute field is absent. -/
def sampleLiveEntryEvent : Event :=
  { playerId := some 1, playerName := "Pepe".toList, matchId := some 20,
    matchRound := none, matchDate := none, minute := none,
    event_type := some "cambio".toList, result := some "entrante".toList,
    observation := none, zone := none, system := "touch-field-final".toList }

/-- The roster entry of Manuel Torres Palenzuela, alias `manu`. -/
def sampleRosterEntry : RosterEntry :=
  { name := "Manuel Torres Palenzuela".toList, pc := 5, pj := 4, pt := 3,
    minutes := 250, goals := 2, yellow_cards := 1, red_cards := 0, assists := 1 }

/-- A one-entry roster cache keyed by the slug of the entry's display name. -/
def sampleRoster : List (Str × RosterEntry) :=
  [("manuel-torres-palenzuela".toList, sampleRosterEntry)]

/-- The phase-1 stats of player 1 after the two events
`sampleImportedEvent` (round 2) and `sampleEventRound1` (round 1). -/
def cxStats : Stats :=
  updateStats sampleEventRound1 (updateStats sampleImportedEvent (initStats 1 "Pepe".toList []))

/-- The running `success_rate` of a 1-for-1 match entry, kept as the
unevaluated `pyRound` term (rational arithmetic does not reduce in the
kernel; the sort key never inspects this field). -/
def cxRate : Int := pyRound (((1 : Nat) : ℚ) / ((1 : Nat) : ℚ) * 100)

/-- The per-match entry the pipeline builds for `sampleImportedEvent`. -/
def cxMatchRound2 : MatchEntry :=
  { match_id := 20, round := "Jornada 2".toList, date := some "2024-09-01".toList,
    actions := 1, successes := 1, success_rate := cxRate }

/-- The per-match entry the pipeline builds for `sampleEventRound1`. -/
def cxMatchRound1 : MatchEntry :=
  { match_id := 10, round := "Jornada 1".toList, date := some "2024-10-01".toList,
    actions := 1, successes := 1, success_rate := cxRate }

/-!  ## Theorems  -/

/-- `containsSub` decides the `List.IsInfix` relation. -/
theorem containsSub_iff (needle haystack : Str) :
    containsSub needle haystack = true ↔ needle <:+: haystack := by
  unfold containsSub
  rw [List.any_eq_true]
  constructor
  · rintro ⟨t, ht, hp⟩
    rw [List.mem_tails] at ht
    rw [ List.isPrefixOf_iff_prefix] at hp
    exact List.infix_iff_prefix_suffix.mpr ⟨t, hp, ht⟩
  · intro h
    obtain ⟨t, hp, ht⟩ := List.infix_iff_prefix_suffix.mp h
    refine ⟨t, ?_, ?_⟩
    · rw [List.mem_tails]; exact ht
    · rw [ List.isPrefixOf_iff_prefix]; exact hp

theorem dget_dset_self {β : Type} (k : Nat) (v : β) (m : List (Nat × β)) :
    dget k (dset k v m) = some v := by
  induction m with
  | nil => simp [dget, dset]
  | cons kv rest ih =>
      by_cases h : kv.1 = k
      · simp [dget, dset, h]
      · simp [dget, dset, h, ih]

theorem dget_dset_ne {β : Type} (k k' : Nat) (v : β) (m : List (Nat × β))
    (h : k' ≠ k) : dget k' (dset k v m) = dget k' m := by
  have hne : k ≠ k' := fun hk => h hk.symm
  induction m with
  | nil => simp [dget, dset, hne]
  | cons kv rest ih =>
      obtain ⟨k1, v1⟩ := kv
      by_cases hk : k1 = k
      · subst hk
        simp [dget, dset, hne]
      · by_cases hk' : k1 = k'
        · simp [dget, dset, hk, hk', h]
        · simp [dget, dset, hk, hk', ih]

theorem mem_dset {β : Type} {kv : Nat × β} {k : Nat} {v : β} {m : List (Nat × β)}
    (h : kv ∈ dset k v m) : kv = (k, v) ∨ kv ∈ m := by
  induction m with
  | nil => simpa [dset] using h
  | cons kv' rest ih =>
      by_cases hk : kv'.1 = k
      · simp only [dset, hk, if_pos rfl] at h
        rcases List.mem_cons.mp h with h | h
        · exact Or.inl h
        · exact Or.inr (List.mem_cons_of_mem _ h)
      · simp only [dset, hk, if_neg hk] at h
        rcases List.mem_cons.mp h with h | h
        · exact Or.inr (h ▸ List.mem_cons_self _ _)
        · rcases ih h with h | h
          · exact Or.inl h
          · exact Or.inr (List.mem_cons_of_mem _ h)

theorem dget_mem {β : Type} {k : Nat} {v : β} {m : List (Nat × β)}
    (h : dget k m = some v) : (k, v) ∈ m := by
  induction m with
  | nil => simp [dget] at h
  | cons kv rest ih =>
      obtain ⟨k1, v1⟩ := kv
      by_cases hk : k1 = k
      · subst hk
        simp [dget] at h
        subst h
        exact List.mem_cons_self _ _
      · simp only [dget, if_neg hk] at h
        exact List.mem_cons_of_mem _ (ih h)

theorem dget_eq_none_of_not_key {β : Type} {k : Nat} {m : List (Nat × β)}
    (h : ∀ kv ∈ m, kv.1 ≠ k) : dget k m = none := by
  induction m with
  | nil => simp [dget]
  | cons kv rest ih =>
      have h1 : kv.1 ≠ k := h kv (List.mem_cons_self _ _)
      simp only [dget, if_neg h1]
      exact ih (fun x hx => h x (List.mem_cons_of_mem _ hx))

theorem not_key_of_dget_eq_none {β : Type} {k : Nat} {m : List (Nat × β)}
    (h : dget k m = none) : ∀ kv ∈ m, kv.1 ≠ k := by
  induction m with
  | nil => simp
  | cons kv rest ih =>
      intro x hx
      by_cases hk : kv.1 = k
      · simp [dget, hk] at h
      · simp only [dget, if_neg hk] at h
        rcases List.mem_cons.mp hx with hx | hx
        · exact hx ▸ hk
        · exact ih h x hx

theorem alookup_some_mem {β : Type} {k : Str} {v : β} {m : List (Str × β)}
    (h : alookup k m = some v) : (k, v) ∈ m := by
  induction m with
  | nil => simp [alookup] at h
  | cons kv rest ih =>
      obtain ⟨k1, v1⟩ := kv
      by_cases hk : k1 = k
      · subst hk
        simp [alookup] at h
        subst h
        exact List.mem_cons_self _ _
      · simp only [alookup, if_neg hk] at h
        exact List.mem_cons_of_mem _ (ih h)

theorem pyRound_nonneg {q : ℚ} (h : 0 ≤ q) : 0 ≤ pyRound q := by
  have hf : (0 : ℤ) ≤ ⌊q⌋ := Int.floor_nonneg.mpr h
  unfold pyRound
  split_ifs <;> omega

theorem pyRound_le {q : ℚ} {B : ℤ} (h : q ≤ (B : ℚ)) : pyRound q ≤ B := by
  have hf : ⌊q⌋ ≤ B := by
    have := Int.floor_le_floor h
    simpa using this
  have hstrict : ¬(q - ⌊q⌋ < 1 / 2) → ⌊q⌋ < B := by
    intro hge
    push_neg at hge
    have h1 : (⌊q⌋ : ℚ) < q := by
      have : (0 : ℚ) < 1 / 2 := by norm_num
      linarith
    have : (⌊q⌋ : ℚ) < (B : ℚ) := lt_of_lt_of_le h1 h
    exact_mod_cast this
  unfold pyRound
  split_ifs with h1 h2 h3
  · exact hf
  · have := hstrict h1; omega
  · exact hf
  · have := hstrict h1; omega

theorem statsInv_initStats (pid : Nat) (pname : Str) (roster : List (Str × RosterEntry)) :
    StatsInv (initStats pid pname roster) := by
  refine ⟨?_, ?_, ?_, ?_⟩ <;> simp [initStats]

theorem statsInv_initStatsFromCache (pid : Nat) (pname : Str)
    (rosterCache : List (Str × RosterEntry)) :
    StatsInv (initStatsFromCache pid pname rosterCache) := by
  refine ⟨?_, ?_, ?_, ?_⟩ <;> simp [initStatsFromCache]

theorem statsInv_updateStats (e : Event) (st : Stats) (h : StatsInv st) :
    StatsInv (updateStats e st) := by
  obtain ⟨h1, h2, h3, h4⟩ := h
  have hsa : StatsInv (tallySuccess e (tallyAction st)) := by
    unfold tallySuccess tallyAction
    split_ifs <;>
      exact ⟨by simp; omega, by simpa using h2, by simpa using h3, by simpa using h4⟩
  have hg : ∀ s, StatsInv s → StatsInv (tallyGoal e s) := by
    intro s hs
    unfold tallyGoal
    split_ifs with hc
    · simpa [StatsInv] using hs
    · exact hs
  have ha : ∀ s, StatsInv s → StatsInv (tallyAssist e s) := by
    intro s hs
    unfold tallyAssist
    split_ifs with hc
    · simpa [StatsInv] using hs
    · exact hs
  have hy : ∀ s, StatsInv s → StatsInv (tallyYellow e s) := by
    intro s hs
    unfold tallyYellow
    split_ifs with hc
    · simpa [StatsInv] using hs
    · exact hs
  have hr : ∀ s, StatsInv s → StatsInv (tallyRed e s) := by
    intro s hs
    unfold tallyRed
    split_ifs with hc
    · simpa [StatsInv] using hs
    · exact hs
  have hd : ∀ s, StatsInv s → StatsInv (tallyDuel e s) := by
    intro s hs
    obtain ⟨g1, g2, g3, g4⟩ := hs
    unfold tallyDuel
    split_ifs with hc hw
    · exact ⟨by simpa using g1, by simp; omega, by simpa using g3, by simpa using g4⟩
    · exact ⟨by simpa using g1, by simp; omega, by simpa using g3, by simpa using g4⟩
    · exact ⟨g1, g2, g3, g4⟩
  have hsh : ∀ s, StatsInv s → StatsInv (tallyShot e s) := by
    intro s hs
    obtain ⟨g1, g2, g3, g4⟩ := hs
    unfold tallyShot
    split_ifs with hc hw
    · exact ⟨by simpa using g1, by simpa using g2, by simp; omega, by simpa using g4⟩
    · exact ⟨by simpa using g1, by simpa using g2, by simp; omega, by simpa using g4⟩
    · exact ⟨g1, g2, g3, g4⟩
  have hp : ∀ s, StatsInv s → StatsInv (tallyPass e s) := by
    intro s hs
    obtain ⟨g1, g2, g3, g4⟩ := hs
    unfold tallyPass
    split_ifs with hc hw
    · exact ⟨by simpa using g1, by simpa using g2, by simpa using g3, by simp; omega⟩
    · exact ⟨by simpa using g1, by simpa using g2, by simpa using g3, by simp; omega⟩
    · exact ⟨g1, g2, g3, g4⟩
  have hm : ∀ s, StatsInv s → StatsInv (tallyMatch e s) := by
    intro s hs
    unfold tallyMatch
    cases e.matchId
    · exact hs
    · simpa [StatsInv] using hs
  exact hm _ (hp _ (hsh _ (hd _ (hr _ (hy _ (ha _ (hg _ hsa)))))))

theorem statsInv_phase1Step (roster : List (Str × RosterEntry)) (m : List (Nat × Stats))
    (e : Event) (h : ∀ kv ∈ m, StatsInv kv.2) :
    ∀ kv ∈ phase1Step roster m e, StatsInv kv.2 := by
  unfold phase1Step
  cases hp : e.playerId with
  | none => exact h
  | some pid =>
      intro kv hkv
      rcases mem_dset hkv with hkv | hkv
      · subst hkv
        refine statsInv_updateStats _ _ ?_
        cases hq : dget pid m with
        | none => simpa [hq] using statsInv_initStats pid e.playerName roster
        | some st => simpa [hq] using h _ (dget_mem hq)
      · exact h _ hkv

theorem statsInv_phase1_fold (roster : List (Str × RosterEntry)) (events : List Event)
    (m : List (Nat × Stats)) (h : ∀ kv ∈ m, StatsInv kv.2) :
    ∀ kv ∈ events.foldl (phase1Step roster) m, StatsInv kv.2 := by
  induction events generalizing m with
  | nil => exact h
  | cons e rest ih => exact ih _ (statsInv_phase1Step roster m e h)

theorem statsInv_applyOneTimeline (ends : List (Nat × Int)) (st : Stats)
    (mt : Nat × Timeline) (h : StatsInv st) : StatsInv (applyOneTimeline ends st mt) := by
  simpa [applyOneTimeline, StatsInv] using h

theorem statsInv_applyTimelines (ends : List (Nat × Int)) (tls : List (Nat × Timeline))
    (st : Stats) (h : StatsInv st) : StatsInv (tls.foldl (applyOneTimeline ends) st) := by
  induction tls generalizing st with
  | nil => exact h
  | cons t rest ih => exact ih _ (statsInv_applyOneTimeline ends st t h)

theorem statsInv_phase3Step (ends : List (Nat × Int)) (m : List (Nat × Stats))
    (ptl : Nat × List (Nat × Timeline)) (h : ∀ kv ∈ m, StatsInv kv.2) :
    ∀ kv ∈ phase3Step ends m ptl, StatsInv kv.2 := by
  unfold phase3Step
  cases hq : dget ptl.1 m with
  | none => exact h
  | some st =>
      intro kv hkv
      rcases mem_dset hkv with hkv | hkv
      · subst hkv
        have hst : StatsInv st := h _ (dget_mem hq)
        have := statsInv_applyTimelines ends ptl.2 st hst
        simpa [StatsInv] using this
      · exact h _ hkv

theorem statsInv_phase3_fold (ends : List (Nat × Int))
    (tls : List (Nat × List (Nat × Timeline))) (m : List (Nat × Stats))
    (h : ∀ kv ∈ m, StatsInv kv.2) :
    ∀ kv ∈ tls.foldl (phase3Step ends) m, StatsInv kv.2 := by
  induction tls generalizing m with
  | nil => exact h
  | cons t rest ih => exact ih _ (statsInv_phase3Step ends m t h)

theorem statsInv_ensure_fold (rosterCache : List (Str × RosterEntry))
    (players : List (Nat × Str)) (m : List (Nat × Stats))
    (h : ∀ kv ∈ m, StatsInv kv.2) :
    ∀ kv ∈ players.foldl (ensureRosterStep rosterCache) m, StatsInv kv.2 := by
  induction players generalizing m with
  | nil => exact h
  | cons p rest ih =>
      refine ih _ ?_
      unfold ensureRosterStep
      split_ifs with hc
      · exact h
      · intro kv hkv
        rcases List.mem_append.mp hkv with hkv | hkv
        · exact h _ hkv
        · rcases List.mem_singleton.mp hkv with rfl
          exact statsInv_initStatsFromCache _ _ _

theorem guarded_rate_bounds (s t : Nat) (h : s ≤ t) :
    0 ≤ (if t ≠ 0 then pyRound1 ((s : ℚ) / (t : ℚ) * 100) else 0) ∧
    (if t ≠ 0 then pyRound1 ((s : ℚ) / (t : ℚ) * 100) else 0) ≤ 100 ∧
    (t = 0 → (if t ≠ 0 then pyRound1 ((s : ℚ) / (t : ℚ) * 100) else 0) = 0) := by
  by_cases ht : t = 0
  · simp [ht]
  · have htq : (0 : ℚ) < (t : ℚ) := by exact_mod_cast Nat.pos_of_ne_zero ht
    have hst : (s : ℚ) ≤ (t : ℚ) := by exact_mod_cast h
    have hx0 : 0 ≤ (s : ℚ) / (t : ℚ) * 100 := by positivity
    have hx1 : (s : ℚ) / (t : ℚ) * 100 ≤ 100 := by
      have hdiv : (s : ℚ) / (t : ℚ) ≤ 1 := (div_le_one htq).mpr hst
      nlinarith
    have hr0 : 0 ≤ pyRound (10 * ((s : ℚ) / (t : ℚ) * 100)) :=
      pyRound_nonneg (by linarith)
    have hr1 : pyRound (10 * ((s : ℚ) / (t : ℚ) * 100)) ≤ 1000 :=
      pyRound_le (B := 1000) (by push_cast; linarith)
    have hq0 : (0 : ℚ) ≤ (pyRound (10 * ((s : ℚ) / (t : ℚ) * 100)) : ℚ) := by
      exact_mod_cast hr0
    have hq1 : (pyRound (10 * ((s : ℚ) / (t : ℚ) * 100)) : ℚ) ≤ 1000 := by
      exact_mod_cast hr1
    refine ⟨?_, ?_, fun hc => absurd hc ht⟩
    · simp only [ht, if_true, ne_eq, not_false_iff]
      unfold pyRound1
      positivity
    · simp only [ht, if_true, ne_eq, not_false_iff]
      unfold pyRound1
      linarith

theorem mkOutput_rates (st : Stats) (h : StatsInv st) :
    (0 ≤ (mkOutput st).success_rate ∧ (mkOutput st).success_rate ≤ 100 ∧
      ((mkOutput st).total_actions = 0 → (mkOutput st).success_rate = 0)) ∧
    (0 ≤ (mkOutput st).duel_rate ∧ (mkOutput st).duel_rate ≤ 100 ∧
      ((mkOutput st).duels_total = 0 → (mkOutput st).duel_rate = 0)) ∧
    (0 ≤ (mkOutput st).shots_accuracy ∧ (mkOutput st).shots_accuracy ≤ 100 ∧
      ((mkOutput st).shot_attempts = 0 → (mkOutput st).shots_accuracy = 0)) ∧
    (0 ≤ (mkOutput st).passes_accuracy ∧ (mkOutput st).passes_accuracy ≤ 100 ∧
      ((mkOutput st).pass_attempts = 0 → (mkOutput st).passes_accuracy = 0)) := by
  obtain ⟨h1, h2, h3, h4⟩ := h
  refine ⟨?_, ?_, ?_, ?_⟩
  · simpa [mkOutput] using guarded_rate_bounds st.successes st.total_actions h1
  · simpa [mkOutput] using guarded_rate_bounds st.duels_won st.duels_total h2
  · simpa [mkOutput] using guarded_rate_bounds st.shots_on_target st.shot_attempts h3
  · simpa [mkOutput] using guarded_rate_bounds st.passes_completed st.pass_attempts h4

/-- C2: for every input, every per-player output of the aggregation has
`success_rate`, `duel_rate`, shot accuracy and pass accuracy in `[0, 100]`,
each exactly `0` when its denominator (`total_actions`, `duels_total`,
`shot_attempts`, `pass_attempts`) is `0`; every division is guarded by a
nonzero denominator, so no division by zero is executed. -/
theorem dashboard_rates_bounded (events : List Event)
    (rosterCache : List (Str × RosterEntry)) (rosterPlayers : List (Nat × Str)) :
    ∀ o ∈ compute_player_dashboard events rosterCache rosterPlayers,
      (0 ≤ o.success_rate ∧ o.success_rate ≤ 100 ∧
        (o.total_actions = 0 → o.success_rate = 0)) ∧
      (0 ≤ o.duel_rate ∧ o.duel_rate ≤ 100 ∧
        (o.duels_total = 0 → o.duel_rate = 0)) ∧
      (0 ≤ o.shots_accuracy ∧ o.shots_accuracy ≤ 100 ∧
        (o.shot_attempts = 0 → o.shots_accuracy = 0)) ∧
      (0 ≤ o.passes_accuracy ∧ o.passes_accuracy ≤ 100 ∧
        (o.pass_attempts = 0 → o.passes_accuracy = 0)) := by
  intro o ho
  simp only [compute_player_dashboard] at ho
  rw [List.mem_mergeSort] at ho
  obtain ⟨kv, hkv, rfl⟩ := List.mem_map.mp ho
  have hinv : StatsInv kv.2 := by
    refine statsInv_ensure_fold _ _ _ ?_ kv hkv
    refine statsInv_phase3_fold _ _ _ ?_
    refine statsInv_phase1_fold _ _ [] ?_
    intro x hx
    simp at hx
  exact mkOutput_rates kv.2 hinv

/-- Witness for C2 at a concrete input: the single roster player produces an
output whose success_rate obeys the bounds. -/
theorem dashboard_rates_bounded_witness :
    ∃ o ∈ compute_player_dashboard [] [] [(1, "Pepe".toList)],
      0 ≤ o.success_rate ∧ o.success_rate ≤ 100 ∧ o.success_rate = 0 := by
  have hmem : mkOutput (initStatsFromCache 1 "Pepe".toList []) ∈
      compute_player_dashboard [] [] [(1, "Pepe".toList)] := by
    have heq : compute_player_dashboard [] [] [(1, "Pepe".toList)] =
        [mkOutput (initStatsFromCache 1 "Pepe".toList [])] := by
      simp [compute_player_dashboard, ensureRosterStep, dget, List.mergeSort_singleton]
    rw [heq]
    exact List.mem_singleton.mpr rfl
  have H := dashboard_rates_bounded [] [] [(1, "Pepe".toList)] _ hmem
  exact ⟨_, hmem, H.1.1, H.1.2.1, H.1.2.2 rfl⟩

/-- C1: `is_goal_event` is true iff one of `event_type`, `result`,
`observation` contains a goal keyword as a substring of its normalization;
absent input normalizes to the empty string, which matches no keyword. -/
theorem goal_event_keyword_iff :
    (∀ event_type result observation : Option Str,
      is_goal_event event_type result observation = true ↔
        ∃ k ∈ GOAL_KEYWORDS,
          (k <:+: normalize_label event_type ∨ k <:+: normalize_label result ∨
           k <:+: normalize_label observation)) ∧
    normalize_label none = [] ∧
    GOAL_KEYWORDS.all (fun k => !containsSub k (normalize_label none)) = true := by
  refine ⟨?_, rfl, by decide⟩
  intro et r ob
  simp only [is_goal_event, contains_keyword, Bool.or_eq_true, List.any_eq_true,
    containsSub_iff]
  constructor
  · rintro ((⟨k, hk, h⟩ | ⟨k, hk, h⟩) | ⟨k, hk, h⟩)
    · exact ⟨k, hk, Or.inl h⟩
    · exact ⟨k, hk, Or.inr (Or.inl h)⟩
    · exact ⟨k, hk, Or.inr (Or.inr h)⟩
  · rintro ⟨k, hk, (h | h | h)⟩
    · exact Or.inl (Or.inl ⟨k, hk, h⟩)
    · exact Or.inl (Or.inr ⟨k, hk, h⟩)
    · exact Or.inr ⟨k, hk, h⟩

/-- C3: when the derived exit minute is earlier than the derived entry minute
(e.g. entry 10, exit 5), the reconstruction sets exit = entry and credits zero
minutes; in general the credited minutes are never negative (the fold only
ever adds `max 0 _`), and the reconstruction is a total function. -/
theorem timeline_inverted_exit_clamped :
    (∀ (ends : List (Nat × Int)) (st : Stats) (mid : Nat) (tl : Timeline),
      tl.exit.getD ((dget mid ends).getD 0) < tl.entry.getD 0 →
        ((if tl.exit.getD ((dget mid ends).getD 0) < tl.entry.getD 0 then tl.entry.getD 0
          else tl.exit.getD ((dget mid ends).getD 0)) = tl.entry.getD 0 ∧
         (applyOneTimeline ends st (mid, tl)).minutes = st.minutes)) ∧
    (∀ (ends : List (Nat × Int)) (st : Stats) (mt : Nat × Timeline),
      st.minutes ≤ (applyOneTimeline ends st mt).minutes) := by
  constructor
  · intro ends st mid tl h
    refine ⟨if_pos h, ?_⟩
    simp only [applyOneTimeline, if_pos h]
    simp
  · intro ends st mt
    simp only [applyOneTimeline]
    have : (0 : Int) ≤ max 0 ((if (mt.2.exit.getD ((dget mt.1 ends).getD 0)) <
        mt.2.entry.getD 0 then mt.2.entry.getD 0
        else mt.2.exit.getD ((dget mt.1 ends).getD 0)) - mt.2.entry.getD 0) :=
      le_max_left 0 _
    omega

/-- Witness for C3: entry 10, exit 5 yields zero credited minutes. -/
theorem timeline_inverted_exit_clamped_witness :
    (applyOneTimeline [] (initStats 1 [] []) (7, ⟨some 10, some 5, true⟩)).minutes =
      (initStats 1 [] []).minutes :=
  (timeline_inverted_exit_clamped.1 [] (initStats 1 [] []) 7 ⟨some 10, some 5, true⟩
    (by decide)).2

/-- C4: the aggregation is a pure function of its inputs — running it twice on
identical event, roster-cache and roster-player collections (in identical
iteration order) yields identical output, including all list orderings. -/
theorem dashboard_deterministic (events₁ events₂ : List Event)
    (roster₁ roster₂ : List (Str × RosterEntry)) (players₁ players₂ : List (Nat × Str))
    (he : events₁ = events₂) (hr : roster₁ = roster₂) (hp : players₁ = players₂) :
    compute_player_dashboard events₁ roster₁ players₁ =
      compute_player_dashboard events₂ roster₂ players₂ := by
  subst he hr hp
  rfl

/-- Witness for C4 at a concrete input. -/
theorem dashboard_deterministic_witness :
    compute_player_dashboard [sampleImportedEvent] [] [] =
      compute_player_dashboard [sampleImportedEvent] [] [] :=
  dashboard_deterministic _ _ _ _ _ _ rfl rfl rfl

theorem phase2_fold_no_player {p : Nat} (live : List Event)
    (acc : List (Nat × Int) × List (Nat × List (Nat × Timeline)))
    (h : ∀ e ∈ live, e.playerId = some p → e.matchId = none) :
    dget p (live.foldl phase2Step acc).2 = dget p acc.2 := by
  induction live generalizing acc with
  | nil => rfl
  | cons e rest ih =>
      have hstep : dget p (phase2Step acc e).2 = dget p acc.2 := by
        unfold phase2Step
        cases hpid : e.playerId with
        | none => rfl
        | some pid =>
            cases hmid : e.matchId with
            | none => rfl
            | some mid =>
                by_cases hp : pid = p
                · subst hp
                  have := h e (List.mem_cons_self _ _) hpid
                  simp [hmid] at this
                · exact dget_dset_ne pid p _ _ (fun hq => hp hq.symm)
      rw [List.foldl_cons, ih _ (fun x hx => h x (List.mem_cons_of_mem _ hx)), hstep]

theorem phase3_fold_no_key {p : Nat} (ends : List (Nat × Int))
    (tls : List (Nat × List (Nat × Timeline))) (stats : List (Nat × Stats))
    (h : ∀ t ∈ tls, t.1 ≠ p) :
    dget p (tls.foldl (phase3Step ends) stats) = dget p stats := by
  induction tls generalizing stats with
  | nil => rfl
  | cons t rest ih =>
      have hstep : dget p (phase3Step ends stats t) = dget p stats := by
        unfold phase3Step
        cases hq : dget t.1 stats with
        | none => rfl
        | some st => exact dget_dset_ne t.1 p _ _ (fun he => h t (List.mem_cons_self _ _) he.symm)
      rw [List.foldl_cons, ih _ (fun x hx => h x (List.mem_cons_of_mem _ hx)), hstep]

/-- C5 counterexample: a confirmed but non-live event (system `excel`) of
player 1 in match 20 contributes an action (an event exists for the pair) yet
credits no appearance: `pj` stays `0`. -/
theorem appearance_nonlive_counterexample :
    sampleImportedEvent.playerId = some 1 ∧ sampleImportedEvent.matchId = some 20 ∧
    sampleImportedEvent.system ≠ "touch-field-final".toList ∧
    (compute_player_dashboard [sampleImportedEvent] [] []).map
        (fun o => (o.player_id, o.total_actions, o.pj)) = [(1, 1, 0)] := by
  refine ⟨rfl, rfl, by decide, ?_⟩
  have heq : compute_player_dashboard [sampleImportedEvent] [] [] =
      [mkOutput (updateStats sampleImportedEvent (initStats 1 "Pepe".toList []))] := by
    simp [compute_player_dashboard, phase1Step, sampleImportedEvent, dget, dset,
      List.mergeSort_singleton]
  rw [heq]
  decide

/-- C5 amended: the appearance counter `pj` is credited only through the
timeline phase built from live (`system='touch-field-final'`) events with a
match: if a player has no such live event, the timeline phase leaves that
player's stats — in particular `pj` — exactly as the confirmed-events phase
(roster baseline) produced them, whatever confirmed events exist. -/
theorem appearance_only_from_live (events : List Event) (stats : List (Nat × Stats))
    (p : Nat)
    (h : ∀ e ∈ events, e.system = "touch-field-final".toList →
      e.playerId = some p → e.matchId = none) :
    dget p
      ((((events.filter (fun e => e.system = "touch-field-final".toList)).foldl
          phase2Step ([], [])).2).foldl
        (phase3Step (((events.filter (fun e => e.system = "touch-field-final".toList)).foldl
          phase2Step ([], [])).1))
        stats)
      = dget p stats := by
  have hlive : ∀ e ∈ events.filter (fun e => e.system = "touch-field-final".toList),
      e.playerId = some p → e.matchId = none := by
    intro e he
    rw [List.mem_filter] at he
    exact h e he.1 (by simpa using he.2)
  have htl : dget p ((events.filter
      (fun e => e.system = "touch-field-final".toList)).foldl phase2Step ([], [])).2 = none := by
    rw [phase2_fold_no_player _ _ hlive]
    rfl
  exact phase3_fold_no_key _ _ _ (not_key_of_dget_eq_none htl)

/-- Witness for the C5 amended theorem at a concrete input. -/
theorem appearance_only_from_live_witness :
    dget 1
      (((([sampleImportedEvent].filter
          (fun e => e.system = "touch-field-final".toList)).foldl phase2Step ([], [])).2).foldl
        (phase3Step ((([sampleImportedEvent].filter
          (fun e => e.system = "touch-field-final".toList)).foldl phase2Step ([], [])).1))
        [])
      = dget 1 ([] : List (Nat × Stats)) :=
  appearance_only_from_live [sampleImportedEvent] [] 1 (by decide)

theorem tercioLookup_first_match (tbl : List (Str × Str)) (n : Str) (v : Str) :
    tercioLookup tbl n = some v ↔
      ∃ pre suf k, tbl = pre ++ (k, v) :: suf ∧ containsSub k n = true ∧
        ∀ kv ∈ pre, containsSub kv.1 n = false := by
  induction tbl with
  | nil =>
      simp only [tercioLookup]
      constructor
      · intro h; cases h
      · rintro ⟨pre, suf, k, heq, -, -⟩
        exact absurd heq (by simp)
  | cons kv0 rest ih =>
      obtain ⟨k0, v0⟩ := kv0
      simp only [tercioLookup]
      by_cases hc : containsSub k0 n = true
      · rw [if_pos hc]
        constructor
        · intro h
          obtain rfl : v0 = v := by injection h
          exact ⟨[], rest, k0, rfl, hc, by simp⟩
        · rintro ⟨pre, suf, k, heq, hck, hpre⟩
          cases pre with
          | nil =>
              simp only [List.nil_append, List.cons.injEq] at heq
              obtain ⟨⟨-, rfl⟩, -⟩ := heq
              rfl
          | cons p ps =>
              simp only [List.cons_append, List.cons.injEq] at heq
              obtain ⟨rfl, -⟩ := heq
              have := hpre (k0, v0) (List.mem_cons_self _ _)
              simp [hc] at this
      · rw [if_neg hc]
        rw [ih]
        constructor
        · rintro ⟨pre, suf, k, heq, hck, hpre⟩
          refine ⟨(k0, v0) :: pre, suf, k, by rw [heq]; rfl, hck, ?_⟩
          intro kv hkv
          rcases List.mem_cons.mp hkv with rfl | hkv
          · simpa using (Bool.not_eq_true _).mp hc
          · exact hpre kv hkv
        · rintro ⟨pre, suf, k, heq, hck, hpre⟩
          cases pre with
          | nil =>
              simp only [List.nil_append, List.cons.injEq] at heq
              obtain ⟨⟨rfl, -⟩, -⟩ := heq
              exact absurd hck hc
          | cons p ps =>
              simp only [List.cons_append, List.cons.injEq] at heq
              obtain ⟨-, rfl⟩ := heq
              exact ⟨ps, suf, k, rfl, hck,
                fun kv hkv => hpre kv (List.mem_cons_of_mem _ hkv)⟩

/-- C6 counterexample: the normalized text `ataque defensivo` contains both
the table phrase `ataque` (mapped to `Ataque`) and the longer table phrase
`defensivo` (mapped to `Defensa`); longest-first resolution would return
`Defensa`, but `map_tercio` returns `Ataque`. -/
theorem map_tercio_longest_counterexample :
    map_tercio (some "ataque defensivo".toList) = some "Ataque".toList ∧
    ("defensivo".toList, "Defensa".toList) ∈ TERCIO_MAP ∧
    containsSub "defensivo".toList (normalize_label (some "ataque defensivo".toList)) = true ∧
    ("ataque".toList).length < ("defensivo".toList).length ∧
    ("Defensa".toList : Str) ≠ "Ataque".toList := by
  refine ⟨by decide, by decide, by decide, by decide, by decide⟩

/-- C6 amended: `map_tercio` resolves by the *first* matching phrase in the
phrase table's insertion order, not by the longest one: it returns label `v`
iff some table phrase mapped to `v` is contained in the normalized text and
every phrase listed before it in the table is not contained. -/
theorem map_tercio_first_match (raw : Option Str) (v : Str) :
    map_tercio raw = some v ↔
      ∃ pre suf k, TERCIO_MAP = pre ++ (k, v) :: suf ∧
        containsSub k (normalize_label raw) = true ∧
        ∀ kv ∈ pre, containsSub kv.1 (normalize_label raw) = false :=
  tercioLookup_first_match TERCIO_MAP (normalize_label raw) v

/-- C7 counterexample: an event with `event_type='cambio'` and
`result='entrada salida'` is classified as both a substitution entry and a
substitution exit. -/
theorem sub_entry_exit_both_counterexample :
    is_substitution_entry (some "cambio".toList) (some "entrada salida".toList) none = true ∧
    is_substitution_exit (some "cambio".toList) (some "entrada salida".toList) none = true := by
  refine ⟨by decide, by decide⟩

/-- C7 amended: the entry and exit predicates are not mutually exclusive; an
event classifies as both entry and exit exactly when it is a substitution
event and its result or zone text contains an entry keyword and its result or
zone text contains an exit keyword — so on substitution events whose texts
carry keywords of only one kind, at most one of the two predicates holds. -/
theorem sub_entry_exit_both_iff (event_type result zone : Option Str) :
    (is_substitution_entry event_type result zone = true ∧
      is_substitution_exit event_type result zone = true) ↔
    (is_substitution_event event_type zone = true ∧
      (contains_keyword result SUB_ENTRY_KEYWORDS = true ∨
        contains_keyword zone SUB_ENTRY_KEYWORDS = true) ∧
      (contains_keyword result SUB_EXIT_KEYWORDS = true ∨
        contains_keyword zone SUB_EXIT_KEYWORDS = true)) := by
  unfold is_substitution_entry is_substitution_exit
  cases hse : is_substitution_event event_type zone with
  | true => simp [hse]
  | false => simp [hse]


theorem alias_map_value_facts :
    ∀ kv ∈ ALIAS_MAP, kv.2 ≠ [] ∧ slugify kv.2 = kv.2 ∧
      (alookup kv.2 ALIAS_MAP).getD kv.2 = kv.2 := by
  decide

/-- C8: roster resolution is deterministic and alias-consistent.  If the alias
table sends slug `a` to target key `t`, the roster holds entry `e` under key
`t`, `nameA` slugifies to `a`, and `e`'s display name slugifies to `t` (as
every entry built by `parse_preferente_roster` does), then resolving the alias
name and resolving the entry's canonical display name return the identical
entry, and re-canonicalizing the canonical key `t` is stable (idempotence). -/
theorem roster_alias_consistent (nameA a t : Str) (roster : List (Str × RosterEntry))
    (e : RosterEntry)
    (h1 : alookup a ALIAS_MAP = some t)
    (h2 : alookup t roster = some e)
    (h3 : slugify nameA = a)
    (h4 : slugify e.name = t) :
    find_roster_entry (some nameA) roster = some e ∧
    find_roster_entry (some e.name) roster = some e ∧
    canonical_roster_key (some t) = t := by
  obtain ⟨hne, hslug, hidem⟩ := alias_map_value_facts (a, t) (alookup_some_mem h1)
  have hkeyA : canonical_roster_key (some nameA) = t := by
    simp [canonical_roster_key, normalize_player_name, h3, h1]
  have hkeyT : canonical_roster_key (some t) = t := by
    simp only [canonical_roster_key, normalize_player_name, Option.getD_some]
    rw [hslug]
    exact hidem
  have hkeyD : canonical_roster_key (some e.name) = t := by
    simp only [canonical_roster_key, normalize_player_name, Option.getD_some]
    rw [h4]
    exact hidem
  refine ⟨?_, ?_, hkeyT⟩
  · simp [find_roster_entry, hkeyA, hne, h2]
  · simp [find_roster_entry, hkeyD, hne, h2]

/-- Witness for C8: `Manu` and `Manuel Torres Palenzuela` resolve to the same
roster entry via the `manu → manuel-torres-palenzuela` alias. -/
theorem roster_alias_consistent_witness :
    find_roster_entry (some "Manu".toList) sampleRoster = some sampleRosterEntry ∧
    find_roster_entry (some sampleRosterEntry.name) sampleRoster = some sampleRosterEntry ∧
    canonical_roster_key (some "manuel-torres-palenzuela".toList) =
      "manuel-torres-palenzuela".toList :=
  roster_alias_consistent "Manu".toList "manu".toList "manuel-torres-palenzuela".toList
    sampleRoster sampleRosterEntry (by decide) (by decide) (by decide) (by decide)

theorem matchLe_trans (a b c : MatchEntry) (hab : matchLe a b = true)
    (hbc : matchLe b c = true) : matchLe a c = true := by
  simp only [matchLe, decide_eq_true_eq] at *
  exact le_trans hab hbc

theorem matchLe_total (a b : MatchEntry) : (matchLe a b || matchLe b a) = true := by
  simp only [matchLe, Bool.or_eq_true, decide_eq_true_eq]
  exact le_total _ _

/-- C9 counterexample: with round-2 played on 2024-09-01 and round-1 played on
2024-10-01, the produced matches list sorts by round number first, giving
adjacent entries whose first date (2024-10-01) is strictly later than the
second (2024-09-01) — not chronological by date. -/
theorem matches_not_chronological_counterexample :
    (compute_player_dashboard [sampleImportedEvent, sampleEventRound1] [] []).map
        (fun o => o.match_list.map (fun m => (m.round, m.date))) =
      [[("Jornada 1".toList, some "2024-10-01".toList),
        ("Jornada 2".toList, some "2024-09-01".toList)]] ∧
    ("2024-09-01".toList : Str) < "2024-10-01".toList := by
  constructor
  · have heq : compute_player_dashboard [sampleImportedEvent, sampleEventRound1] [] [] =
        [mkOutput cxStats] := by
      simp [compute_player_dashboard, phase1Step, cxStats, sampleImportedEvent,
        sampleEventRound1, dget, dset, List.mergeSort_singleton]
    rw [heq]
    have hmap : cxStats.matches_.map (fun kv => kv.2) = [cxMatchRound2, cxMatchRound1] := rfl
    have hAB : matchLe cxMatchRound2 cxMatchRound1 = false := by decide
    have hBA : matchLe cxMatchRound1 cxMatchRound2 = true := by decide
    have hml : (mkOutput cxStats).match_list = [cxMatchRound1, cxMatchRound2] := by
      show (cxStats.matches_.map (fun kv => kv.2)).mergeSort matchLe = _
      rw [hmap]
      simp [List.mergeSort, List.merge, hAB, hBA]
    simp only [List.map_cons, List.map_nil, hml]
    decide
  · decide

/-- C9 amended: within every per-player output, the matches list is sorted
ascending by the key (round number missing, round number with missing/zero
mapped to 9999, then date string); the date is only a tie-break, so the list
is chronological only within equal round keys. -/
theorem matches_sorted_by_round_key (events : List Event)
    (rosterCache : List (Str × RosterEntry)) (rosterPlayers : List (Nat × Str)) :
    ∀ o ∈ compute_player_dashboard events rosterCache rosterPlayers,
      o.match_list.Pairwise (fun a b => matchSortKey a ≤ matchSortKey b) := by
  intro o ho
  simp only [compute_player_dashboard] at ho
  rw [List.mem_mergeSort] at ho
  obtain ⟨kv, hkv, rfl⟩ := List.mem_map.mp ho
  have hml : (mkOutput kv.2).match_list =
      (kv.2.matches_.map (fun x => x.2)).mergeSort matchLe := rfl
  rw [hml]
  have hs := List.sorted_mergeSort matchLe_trans matchLe_total
    (kv.2.matches_.map (fun x => x.2))
  exact hs.imp (fun h => by simpa [matchLe, decide_eq_true_eq] using h)

/-- Witness for the C9 amended theorem: the concrete two-match output above is
sorted by the round key. -/
theorem matches_sorted_by_round_key_witness :
    ∃ o ∈ compute_player_dashboard [sampleImportedEvent, sampleEventRound1] [] [],
      o.match_list.Pairwise (fun a b => matchSortKey a ≤ matchSortKey b) := by
  have heq : compute_player_dashboard [sampleImportedEvent, sampleEventRound1] [] [] =
      [mkOutput cxStats] := by
    simp [compute_player_dashboard, phase1Step, cxStats, sampleImportedEvent,
      sampleEventRound1, dget, dset, List.mergeSort_singleton]
  refine ⟨mkOutput cxStats, ?_, ?_⟩
  · rw [heq]; exact List.mem_singleton.mpr rfl
  · exact matches_sorted_by_round_key [sampleImportedEvent, sampleEventRound1] [] []
      (mkOutput cxStats) (by rw [heq]; exact List.mem_singleton.mpr rfl)

/-- C10: a substitution-entry event with an absent minute is recorded at
minute 0 (`event.minute or 0`); on a fresh timeline it yields entry minute 0,
so the reconstruction counts the player as a starter (`pt` increments, since
entry = 0), credits an appearance, and credits minutes from 0 up to the match
end minute. -/
theorem absent_minute_entry_zero (e : Event)
    (h1 : is_substitution_entry e.event_type e.result e.zone = true)
    (h2 : is_substitution_exit e.event_type e.result e.zone = false)
    (h3 : e.minute = none) :
    updateTimeline e ⟨none, none, false⟩ = ⟨some 0, none, true⟩ ∧
    ∀ (ends : List (Nat × Int)) (st : Stats) (mid : Nat) (matchEnd : Int),
      dget mid ends = some matchEnd → 0 ≤ matchEnd →
      applyOneTimeline ends st (mid, ⟨some 0, none, true⟩) =
        { st with minutes := st.minutes + matchEnd, pj := st.pj + 1, pt := st.pt + 1 } := by
  constructor
  · simp [updateTimeline, h1, h2, h3, min_or_none]
  · intro ends st mid matchEnd hm hnn
    have hlt : ¬(matchEnd < (0 : Int)) := not_lt.mpr hnn
    simp [applyOneTimeline, hm, hlt, max_eq_right hnn]

/-- Witness for C10: the concrete minute-less live entry event, with a match
end of 80, credits a start and 80 minutes. -/
theorem absent_minute_entry_zero_witness :
    updateTimeline sampleLiveEntryEvent ⟨none, none, false⟩ = ⟨some 0, none, true⟩ ∧
    applyOneTimeline [(20, 80)] (initStats 1 [] []) (20, ⟨some 0, none, true⟩) =
      { initStats 1 [] [] with
          minutes := (initStats 1 [] []).minutes + 80,
          pj := (initStats 1 [] []).pj + 1,
          pt := (initStats 1 [] []).pt + 1 } :=
  ⟨(absent_minute_entry_zero sampleLiveEntryEvent (by decide) (by decide) (by decide)).1,
   (absent_minute_entry_zero sampleLiveEntryEvent (by decide) (by decide) (by decide)).2
     [(20, 80)] (initStats 1 [] []) 20 80 (by decide) (by decide)⟩
